import Mathlib

/-!
Verification of the agentdog coordination-failure detection core:
a shallow embedding of `backend/coordination_failure_detector.py` and
`backend/observability_tracer.py`, with theorems about the detector's
passes, scoring, and the tracer's span lifecycle.

Modelling conventions:
* Python strings are Lean `String`s; Python `str.lower()`, `str.strip()`,
  `str.split()` and substring tests (`in`) are re-implemented on `List Char`
  so that all definitions are structurally recursive and kernel-evaluable.
* Python values that may be `None` are `Option` values.  `str(x)` applied to
  a possibly-`None` text field renders `None` as the string "None", exactly
  as Python does.
* Python exceptions (`KeyError`, `TypeError`) are modelled with
  `Except String`; the message text is an abbreviated rendering of the
  Python message (quote characters dropped).
* Python dicts that the detector only reads by key are modelled as
  structures with one field per key that the source reads.
-/

namespace AgentDog

/-! ## Python-style string primitives -/

/-- Chars of `needle` are a prefix of `hay` (Python `startswith` on char lists). -/
def isPrefixCharList : List Char → List Char → Bool
  | [], _ => true
  | _ :: _, [] => false
  | a :: as, b :: bs => a == b && isPrefixCharList as bs

/-- `needle` occurs as a contiguous sublist of `hay` (Python `in` for strings). -/
def hasSubList (needle : List Char) : List Char → Bool
  | [] => needle.isEmpty
  | b :: bs => isPrefixCharList needle (b :: bs) || hasSubList needle bs

/-- Python `needle in hay` substring test. -/
def strContainsStr (hay needle : String) : Bool :=
  hasSubList needle.data hay.data

/-- Python `s.lower()` (ASCII case folding; all source data is ASCII). -/
def pyLower (s : String) : String :=
  String.mk (s.data.map Char.toLower)

/-- Python `s.strip()`. -/
def pyStrip (s : String) : String :=
  String.mk (((s.data.dropWhile Char.isWhitespace).reverse.dropWhile Char.isWhitespace).reverse)

/-- Accumulator-based splitter for Python `s.split()` (whitespace runs). -/
def splitWsAux (cur : List Char) : List Char → List (List Char)
  | [] => if cur.isEmpty then [] else [cur.reverse]
  | c :: rest =>
    if c.isWhitespace then
      if cur.isEmpty then splitWsAux [] rest else cur.reverse :: splitWsAux [] rest
    else splitWsAux (c :: cur) rest

/-- Python `s.split()`: maximal runs of non-whitespace characters. -/
def pySplitWs (s : String) : List String :=
  (splitWsAux [] s.data).map String.mk

/-- Accumulator-based splitter for Python `s.split(".")`. -/
def splitDotAux (cur : List Char) : List Char → List (List Char)
  | [] => [cur.reverse]
  | c :: rest =>
    if c == '.' then cur.reverse :: splitDotAux [] rest
    else splitDotAux (c :: cur) rest

/-- Python `s.split(".")`. -/
def pySplitDot (s : String) : List String :=
  (splitDotAux [] s.data).map String.mk

/-- Lexicographic code-point comparison of char lists (Python string `<`). -/
def charListLt : List Char → List Char → Bool
  | [], [] => false
  | [], _ :: _ => true
  | _ :: _, [] => false
  | a :: as, b :: bs =>
    if a.toNat < b.toNat then true
    else if b.toNat < a.toNat then false
    else charListLt as bs

/-- Python `a < b` on strings: lexicographic by code point. -/
def pyStrLt (a b : String) : Bool :=
  charListLt a.data b.data

/-- Python `str(x)` for an optional text field: `None` renders as "None". -/
def pyStrOpt : Option String → String
  | none => "None"
  | some s => s

/-- Python truthiness of an optional string: `None` and "" are falsy. -/
def pyTruthy : Option String → Bool
  | none => false
  | some s => !(s == "")

/-- Lookup with default, modelling Python `dict.get(key, default)` on a
string-valued metadata dict. -/
def lookupD (m : List (String × String)) (key dflt : String) : String :=
  match m.lookup key with
  | some v => v
  | none => dflt

/-- Rendering of a string-valued Python dict used only as a search haystack in
`_field_exists_in_trace` (`str(metadata)`); the Python quote characters are not
reproduced, keys and values are. -/
def pyStrOfDict (m : List (String × String)) : String :=
  "\x7b" ++ String.intercalate ", " (m.map fun kv => kv.1 ++ ": " ++ kv.2) ++ "\x7d"

/-- Deduplication keeping the first occurrence of each string; stands in for
Python `list(set(...))`, whose element order is unspecified (no verified
property depends on the order, only on the underlying set). -/
def dedupKeepFirst (seen : List String) : List String → List String
  | [] => []
  | x :: xs => if seen.contains x then dedupKeepFirst seen xs
               else x :: dedupKeepFirst (x :: seen) xs

/-! ## The regular-expression scans used by the detector

The detector uses three `re.findall` patterns; each is re-implemented as a
left-to-right scanner with the same greedy, non-overlapping semantics.  The
scanners consume at least one character per step, so a fuel argument equal to
the input length makes them structurally recursive. -/

/-- Character class of the invented-API pattern: letters, digits,
underscore, slash, dash. -/
def isApiChar (c : Char) : Bool :=
  c.isAlphanum || c == '_' || c == '/' || c == '-'

/-- Scanner for the Python `re.findall` of the invented-API pattern: the
literal "/api/" followed by a maximal nonempty run of API characters. -/
def findApiRefsGo : Nat → List Char → List String
  | 0, _ => []
  | _, [] => []
  | fuel + 1, c :: rest =>
    if isPrefixCharList "/api/".data (c :: rest) then
      let after := (c :: rest).drop 5
      let run := after.takeWhile isApiChar
      if run.isEmpty then findApiRefsGo fuel rest
      else ("/api/" ++ String.mk run) :: findApiRefsGo fuel (after.drop run.length)
    else findApiRefsGo fuel rest

/-- All matches of the invented-API pattern in `text`, in order. -/
def findApiRefs (text : String) : List String :=
  findApiRefsGo text.data.length text.data

/-- Chars of `needle` are a case-insensitive prefix of `hay`
(for `re.IGNORECASE` literal matching). -/
def isPrefixCaseless : List Char → List Char → Bool
  | [], _ => true
  | _ :: _, [] => false
  | a :: as, b :: bs => a.toLower == b.toLower && isPrefixCaseless as bs

/-- Scanner for `re.findall(r"based on ([^.]+)", text, re.IGNORECASE)`;
returns the capture groups. -/
def findBasedOnRefsGo : Nat → List Char → List String
  | 0, _ => []
  | _, [] => []
  | fuel + 1, c :: rest =>
    if isPrefixCaseless "based on ".data (c :: rest) then
      let after := (c :: rest).drop 9
      let run := after.takeWhile (fun x => !(x == '.'))
      if run.isEmpty then findBasedOnRefsGo fuel rest
      else String.mk run :: findBasedOnRefsGo fuel (after.drop run.length)
    else findBasedOnRefsGo fuel rest

/-- All capture groups of the "based on X" pattern in `text`, in order. -/
def findBasedOnRefs (text : String) : List String :=
  findBasedOnRefsGo text.data.length text.data

/-- A regex word character (the scanned text is already lower-cased). -/
def isWordChar (c : Char) : Bool :=
  c.isAlphanum || c == '_'

/-- Maximal runs of word characters (the positions where `\b` holds are
exactly the run boundaries). -/
def wordRunsAux (cur : List Char) : List Char → List (List Char)
  | [] => if cur.isEmpty then [] else [cur.reverse]
  | c :: rest =>
    if isWordChar c then wordRunsAux (c :: cur) rest
    else if cur.isEmpty then wordRunsAux [] rest
    else cur.reverse :: wordRunsAux [] rest

/-- Maximal word-character runs of `text`. -/
def wordRuns (text : String) : List (List Char) :=
  wordRunsAux [] text.data

/-- Whether a word run matches `\b([a-z_]+_[a-z_]+)\b`: every character is in
`[a-z_]` and some underscore occurs with at least one character on each side. -/
def isFieldRun (r : List Char) : Bool :=
  r.all (fun c => ('a' ≤ c && c ≤ 'z') || c == '_') &&
  ((r.drop 1).dropLast.contains '_')

/-! ## Tracer embedding (`backend/observability_tracer.py`)

`Span` objects are mutated in place in the source; here a span is a record and
each mutating method is a function returning the updated record.  Wall-clock
reads (`time.time()`) and uuid generation are nondeterministic inputs of the
source, so they become explicit parameters (`now`, `sid`).  The `children`
list of a span holds live object references in the source; the claims
verified here never touch it, and it is modelled as the list of child span
ids. -/

/-- `SpanType` enum of the tracer. -/
inductive SpanType where
  | root | agent | llm_call | api_call | database | tool | retrieval
  deriving DecidableEq

/-- `SpanStatus` enum of the tracer. -/
inductive SpanStatus where
  | running | success | error
  deriving DecidableEq

/-- Python `int(x)` truncates toward zero. -/
def pyIntTrunc (q : ℚ) : Int :=
  if 0 ≤ q then q.floor else -((-q).floor)

/-- A tracer `Span`; fields as assigned in `Span.__init__`, restricted to the
ones the verified operations read or write. -/
structure TSpan where
  span_id : String
  name : String
  span_type : SpanType
  parent_span_id : Option String
  status : SpanStatus
  start_time : ℚ
  end_time : Option ℚ
  duration_ms : Option Int
  metadata : List (String × String)
  error : Option String
  children : List String
  deriving DecidableEq

/-- `Span.__init__`: a fresh span is `running` with no end time, duration or
error. `sid` models the generated uuid, `now` the `time.time()` read. -/
def mkSpan (name : String) (span_type : SpanType) (parent_span_id : Option String)
    (metadata : List (String × String)) (sid : String) (now : ℚ) : TSpan :=
  { span_id := sid
    name := name
    span_type := span_type
    parent_span_id := parent_span_id
    status := SpanStatus.running
    start_time := now
    end_time := none
    duration_ms := none
    metadata := metadata
    error := none
    children := [] }

/-- `Span.end`: stamps the end time, computes the duration in whole
milliseconds, sets the requested status, and — when a truthy error string is
supplied — records the error and forces the status to `error`.  (`end` is a
Lean keyword, hence the name `endSpan`.) -/
def endSpan (s : TSpan) (now : ℚ) (status : SpanStatus) (error : Option String) : TSpan :=
  let s1 := { s with
    end_time := some now
    duration_ms := some (pyIntTrunc ((now - s.start_time) * 1000))
    status := status }
  if pyTruthy error then { s1 with error := error, status := SpanStatus.error }
  else s1

/-- `ObservabilityTracer` state. -/
structure TracerState where
  run_id : String
  root_span : Option TSpan
  active_spans : List (String × TSpan)
  all_spans : List TSpan

/-- `ObservabilityTracer.__init__`. -/
def initTracer (run_id : String) : TracerState :=
  { run_id := run_id, root_span := none, active_spans := [], all_spans := [] }

/-- Python dict assignment `d[k] = v`: replace the binding if the key exists,
otherwise append it. -/
def dictInsert (k : String) (v : TSpan) : List (String × TSpan) → List (String × TSpan)
  | [] => [(k, v)]
  | (k', v') :: rest =>
    if k' == k then (k, v) :: rest else (k', v') :: dictInsert k v rest

/-- `ObservabilityTracer.start_root_span`: builds a root span, assigns it to
`self.root_span` (unconditionally — there is no already-started guard),
registers it in `active_spans` and appends it to `all_spans`. -/
def startRootSpan (t : TracerState) (name : String) (metadata : List (String × String))
    (sid : String) (now : ℚ) : TracerState :=
  let s := mkSpan name SpanType.root none metadata sid now
  { t with
    root_span := some s
    active_spans := dictInsert s.span_id s t.active_spans
    all_spans := t.all_spans ++ [s] }

/-! ## Detector input model (`backend/coordination_failure_detector.py`)

The detector consumes serialized span dicts (the output of `Span.to_dict`),
so every key below is always present; keys whose serialized value may be
`null` are `Option`s.  `metadata` is modelled as a string-valued association
list (the detector only reads `workflow_type` from it and searches its
`str()` rendering). -/

/-- The scalar fields of one serialized span, as read by the detector. -/
structure SpanData where
  span_id : String := ""
  name : String := ""
  span_type : String := ""
  status : String := "success"
  start_time : String := ""
  duration_ms : Option Int := none
  metadata : List (String × String) := []
  input : Option String := none
  output : Option String := none
  error : Option String := none
  model : Option String := none
  tokens_input : Option Int := none
  tokens_output : Option Int := none
  tokens_total : Option Int := none
  deriving DecidableEq

/-- A serialized span tree (`"trace"` value): scalar fields plus children. -/
inductive SpanNode where
  | node (data : SpanData) (children : List SpanNode)

/-- Scalar fields of a span tree node. -/
def SpanNode.data : SpanNode → SpanData
  | .node d _ => d

/-- Children of a span tree node. -/
def SpanNode.children : SpanNode → List SpanNode
  | .node _ c => c

/-- One entry of the flattened span list: the span's fields plus the parent
reference attached by `_flatten_spans` (the checks only read the parent's
scalar fields, so the reference is modelled by the parent's `SpanData`). -/
structure FlatSpan where
  data : SpanData
  parent : Option SpanData
  deriving DecidableEq

mutual
/-- `_flatten_spans`: pre-order flattening with parent references. -/
def flattenSpan (parent : Option SpanData) : SpanNode → List FlatSpan
  | .node d cs => { data := d, parent := parent } :: flattenMany (some d) cs
/-- `_flatten_spans` over a list of children. -/
def flattenMany (parent : Option SpanData) : List SpanNode → List FlatSpan
  | [] => []
  | c :: cs => flattenSpan parent c ++ flattenMany parent cs
end

/-- One detected failure record (the evidence payload is modelled as a
string-valued association list; quote characters Python embeds in messages
are dropped, and the `valid_models_for_workflow` evidence entry — a Python
set rendered in unspecified order — is omitted). -/
structure Failure where
  ftype : String
  subtype : String
  severity : String
  span_id : String
  span_name : String
  message : String
  evidence : List (String × String)
  deriving DecidableEq

/-- Python `str()` of an optional int (for evidence payloads). -/
def pyStrOptInt : Option Int → String
  | none => "None"
  | some i => toString i

/-- Python `a > b` on optional ints: comparing `None` raises `TypeError`. -/
def pyGtOpt : Option Int → Option Int → Except String Bool
  | some a, some b => Except.ok (decide (a > b))
  | _, _ => Except.error "TypeError: unsupported comparison with NoneType"

/-- Python `a + b` on optional ints: adding `None` raises `TypeError`. -/
def pyAddOpt : Option Int → Option Int → Except String Int
  | some a, some b => Except.ok (a + b)
  | _, _ => Except.error "TypeError: unsupported operand types for +"

/-! ## Workflow-type inference and per-workflow registries -/

/-- `BASE_VALID_MODELS`. -/
def BASE_VALID_MODELS : List String :=
  ["claude-4-sonnet-20250514", "claude-sonnet-4", "gpt-4", "gpt-3.5-turbo"]

/-- `DEBATE_WORKFLOW_MODELS`. -/
def DEBATE_WORKFLOW_MODELS : List String :=
  ["sonar", "sonar-small-chat", "sonar-medium-chat", "sonar-pro"]

/-- `SOCIAL_MEDIA_WORKFLOW_MODELS` (empty: only base models). -/
def SOCIAL_MEDIA_WORKFLOW_MODELS : List String := []

/-- `VALID_SPAN_TYPES`. -/
def VALID_SPAN_TYPES : List String :=
  ["root", "agent", "llm_call", "api_call", "database", "tool", "retrieval"]

/-- `_get_valid_models_for_workflow`: base models unioned with the
workflow-specific registry. -/
def getValidModelsForWorkflow (wt : String) : List String :=
  BASE_VALID_MODELS ++
    (if wt == "debate" then DEBATE_WORKFLOW_MODELS
     else if wt == "social_media" then SOCIAL_MEDIA_WORKFLOW_MODELS
     else [])

/-- Platform keywords of the child-name scan in `_detect_workflow_type`. -/
def PLATFORM_KEYWORDS : List String :=
  ["twitter", "linkedin", "instagram", "facebook", "hashtag"]

/-- The child-name loop of `_detect_workflow_type`: first matching child
wins, debate keywords checked before platform keywords for each child. -/
def childWorkflowScan : List SpanNode → Option String
  | [] => none
  | c :: cs =>
    let n := pyLower c.data.name
    if strContainsStr n "research_agent" || strContainsStr n "debate_agent" then some "debate"
    else if PLATFORM_KEYWORDS.any (fun p => strContainsStr n p) then some "social_media"
    else childWorkflowScan cs

/-- `_detect_workflow_type`: root-name substring match, then the root
metadata's `workflow_type` field, then the child-name scan, else "unknown".
A missing trace behaves like an empty root dict. -/
def detectWorkflowType (trace : Option SpanNode) : String :=
  let root_name := match trace with | some t => t.data.name | none => ""
  let root_meta := match trace with | some t => t.data.metadata | none => []
  let children := match trace with | some t => t.children | none => []
  if strContainsStr (pyLower root_name) "social_media" then "social_media"
  else if strContainsStr (pyLower root_name) "debate" then "debate"
  else
    let workflow_type := lookupD root_meta "workflow_type" ""
    if workflow_type != "" then workflow_type
    else
      match childWorkflowScan children with
      | some w => w
      | none => "unknown"

/-! ## Pass 1 — hallucination detection -/

/-- `_is_valid_api`: the path starts with one of the allow-listed endpoint
prefixes. -/
def isValidApi (p : String) : Bool :=
  ["/api/chat", "/api/runs", "/api/run/", "/api/event",
   "/api/step/", "/api/summary/", "/api/ingest-sample"].any
    (fun v => isPrefixCharList v.data p.data)

/-- `_extract_field_references`: deduplicated word runs of the lowered text
matching the underscore-identifier pattern. -/
def extractFieldReferences (text : String) : List String :=
  dedupKeepFirst [] (((wordRuns (pyLower text)).filter isFieldRun).map String.mk)

/-- `_field_exists_in_trace`: the token occurs in some span's rendered
metadata or input, lower-cased. -/
def fieldExistsInTrace (allSpans : List FlatSpan) (field : String) : Bool :=
  allSpans.any (fun fs =>
    strContainsStr (pyLower (pyStrOfDict fs.data.metadata)) field ||
    strContainsStr (pyLower (pyStrOpt fs.data.input)) field)

/-- The `invalid_model` failure record. -/
def invalidModelFailure (sid sname m wt : String) : Failure :=
  { ftype := "hallucination", subtype := "invalid_model", severity := "high",
    span_id := sid, span_name := sname,
    message := "Agent claims to use model " ++ m ++ " which is not valid for " ++ wt ++ " workflow",
    evidence := [("claimed_model", m), ("workflow_type", wt)] }

/-- The `invalid_span_type` failure record. -/
def invalidSpanTypeFailure (sid sname st : String) : Failure :=
  { ftype := "hallucination", subtype := "invalid_span_type", severity := "medium",
    span_id := sid, span_name := sname,
    message := "Span uses invalid type " ++ st,
    evidence := [("claimed_type", st)] }

/-- The `invented_api` failure record. -/
def inventedApiFailure (sid sname ref : String) : Failure :=
  { ftype := "hallucination", subtype := "invented_api", severity := "high",
    span_id := sid, span_name := sname,
    message := "Agent references non-existent API endpoint " ++ ref,
    evidence := [("claimed_api", ref), ("found_in", "output"), ("first_detected_in_span", sname)] }

/-- The `invented_field` failure record. -/
def inventedFieldFailure (sid sname field : String) : Failure :=
  { ftype := "hallucination", subtype := "invented_field", severity := "medium",
    span_id := sid, span_name := sname,
    message := "Agent references field " ++ field ++ " that doesnt exist in trace",
    evidence := [("claimed_field", field)] }

/-- The invented-API loop of `_detect_hallucinations`: each extracted path
that is invalid and unseen is added to the seen set and reported. -/
def processApiRefs (sid sname : String) (seen : List String) :
    List String → List String × List Failure
  | [] => (seen, [])
  | r :: rs =>
    if !(isValidApi r) && !(seen.contains r) then
      let p := processApiRefs sid sname (r :: seen) rs
      (p.1, inventedApiFailure sid sname r :: p.2)
    else processApiRefs sid sname seen rs

/-- The invented-field loop of `_detect_hallucinations`. -/
def processFields (allSpans : List FlatSpan) (sid sname : String) (seen : List String) :
    List String → List String × List Failure
  | [] => (seen, [])
  | f :: rest =>
    if !(fieldExistsInTrace allSpans f) && !(seen.contains f) then
      let p := processFields allSpans sid sname (f :: seen) rest
      (p.1, inventedFieldFailure sid sname f :: p.2)
    else processFields allSpans sid sname seen rest

/-- Check 1 of `_detect_hallucinations`: a truthy model claim outside the
resolved valid-model set. -/
def modelCheckRecords (validModels : List String) (wt : String) (d : SpanData) :
    List Failure :=
  match d.model with
  | none => []
  | some m =>
    if m == "" then []
    else if validModels.contains m then []
    else [invalidModelFailure d.span_id d.name m wt]

/-- Check 2 of `_detect_hallucinations`: a nonempty span type outside the
recognized enumeration. -/
def spanTypeCheckRecords (d : SpanData) : List Failure :=
  if d.span_type != "" && !(VALID_SPAN_TYPES.contains d.span_type) then
    [invalidSpanTypeFailure d.span_id d.name d.span_type]
  else []

/-- Check 4 of `_detect_hallucinations`: field extraction over agent spans
only, threading the seen-set. -/
def fieldCheck (allSpans : List FlatSpan) (d : SpanData) (seenF : List String) :
    List String × List Failure :=
  if d.span_type == "agent" then
    processFields allSpans d.span_id d.name seenF
      (extractFieldReferences (pyStrOpt d.output))
  else (seenF, [])

/-- The four hallucination checks for one span, threading the two seen-sets;
returns (seen apis, seen fields, records in source order). -/
def hallucinationSpanRecords (allSpans : List FlatSpan) (validModels : List String)
    (wt : String) (fs : FlatSpan) (seenA seenF : List String) :
    List String × List String × List Failure :=
  let d := fs.data
  let p3 := processApiRefs d.span_id d.name seenA (findApiRefs (pyStrOpt d.output))
  let p4 := fieldCheck allSpans d seenF
  (p3.1, p4.1,
    modelCheckRecords validModels wt d ++ spanTypeCheckRecords d ++ p3.2 ++ p4.2)

/-- The span loop of `_detect_hallucinations`. -/
def hallucinationGo (allSpans : List FlatSpan) (validModels : List String) (wt : String)
    (seenA seenF : List String) : List FlatSpan → List Failure
  | [] => []
  | fs :: rest =>
    let r := hallucinationSpanRecords allSpans validModels wt fs seenA seenF
    r.2.2 ++ hallucinationGo allSpans validModels wt r.1 r.2.1 rest

/-- `_detect_hallucinations`: the records it appends to the report. -/
def detectHallucinations (allSpans : List FlatSpan) (wt : String) : List Failure :=
  hallucinationGo allSpans (getValidModelsForWorkflow wt) wt [] [] allSpans

/-! ## Pass 2 — logical inconsistency detection -/

/-- The `status_error_mismatch` failure record. -/
def statusErrorMismatch (d : SpanData) : Failure :=
  { ftype := "logical_inconsistency", subtype := "status_error_mismatch", severity := "high",
    span_id := d.span_id, span_name := d.name,
    message := "Span marked as success but contains error message",
    evidence := [("status", d.status), ("error", pyStrOpt d.error)] }

/-- The `missing_error_details` failure record. -/
def missingErrorDetails (d : SpanData) : Failure :=
  { ftype := "logical_inconsistency", subtype := "missing_error_details", severity := "medium",
    span_id := d.span_id, span_name := d.name,
    message := "Span marked as error but missing error details",
    evidence := [("status", d.status)] }

/-- The `token_count_mismatch` failure record. -/
def tokenMismatch (d : SpanData) (expected : Int) : Failure :=
  { ftype := "logical_inconsistency", subtype := "token_count_mismatch", severity := "low",
    span_id := d.span_id, span_name := d.name,
    message := "Token counts dont add up correctly",
    evidence := [("tokens_input", pyStrOptInt d.tokens_input),
                 ("tokens_output", pyStrOptInt d.tokens_output),
                 ("tokens_total", pyStrOptInt d.tokens_total),
                 ("expected_total", toString expected)] }

/-- The `duration_inconsistency` failure record. -/
def durationInconsistency (d p : SpanData) : Failure :=
  { ftype := "logical_inconsistency", subtype := "duration_inconsistency", severity := "medium",
    span_id := d.span_id, span_name := d.name,
    message := "Child span duration exceeds parent span duration",
    evidence := [("child_duration_ms", pyStrOptInt d.duration_ms),
                 ("parent_duration_ms", pyStrOptInt p.duration_ms),
                 ("parent_span", p.span_id)] }

/-- The four logical-inconsistency checks for one span.  The token check
evaluates `tokens_input + tokens_output` only when `tokens_total` is truthy,
and the duration check compares `duration_ms` with the parent's — both can
raise `TypeError` when a compared value is `null`. -/
def logicalSpanRecords (fs : FlatSpan) : Except String (List Failure) :=
  let d := fs.data
  let recs1 := if d.status == "success" && pyTruthy d.error then [statusErrorMismatch d] else []
  let recs2 := if d.status == "error" && !(pyTruthy d.error) then [missingErrorDetails d] else []
  do
    let recs3 ←
      match d.tokens_total with
      | none => pure []
      | some t =>
        if t == 0 then pure []
        else do
          let s ← pyAddOpt d.tokens_input d.tokens_output
          if s != t then pure [tokenMismatch d s] else pure []
    let recs4 ←
      match fs.parent with
      | none => pure []
      | some p => do
        let b ← pyGtOpt d.duration_ms p.duration_ms
        if b then pure [durationInconsistency d p] else pure []
    pure (recs1 ++ recs2 ++ recs3 ++ recs4)

/-- The span loop of `_detect_logical_inconsistencies`; a raised exception
discards the records accumulated so far, as in the source. -/
def logicalGo : List FlatSpan → Except String (List Failure)
  | [] => Except.ok []
  | fs :: rest => do
    let here ← logicalSpanRecords fs
    let more ← logicalGo rest
    pure (here ++ more)

/-- `_detect_logical_inconsistencies`: the records it appends to the report,
or the exception it raises. -/
def detectLogicalInconsistencies (allSpans : List FlatSpan) : Except String (List Failure) :=
  logicalGo allSpans

/-! ## Pass 3 — missing-context detection -/

/-- `_extract_claims`: among the first five period-separated sentences, those
longer than 20 characters containing a definitive verb pattern, stripped. -/
def extractClaims (text : String) : List String :=
  (((pySplitDot text).take 5).filter
    (fun s => s.length > 20 &&
      (strContainsStr s "is " || strContainsStr s "will " || strContainsStr s "should "))).map pyStrip

/-- `_claim_verifiable`: at least half of (up to three) key terms of the
claim occur in the parent output plus own input. -/
def claimVerifiable (claim parent_output input_data : String) : Bool :=
  let words := pySplitWs (pyLower claim)
  let key_terms := (words.filter (fun w => w.length > 4)).take 3
  let combined_context := pyLower (parent_output ++ " " ++ input_data)
  let matchCount := (key_terms.filter (fun t => strContainsStr combined_context t)).length
  if key_terms.isEmpty then true else decide (2 * matchCount ≥ key_terms.length)

/-- Stop-words of `_reference_exists_in_trace`. -/
def REF_STOP_WORDS : List String := ["the", "this", "that", "with", "from", "data"]

/-- `_reference_exists_in_trace`: the significant words of the reference (at
least two are required, else the check is skipped as too generic) must appear,
two or more together, in some span's lowered input or output.  Note the scan
ranges over every span of the trace, including the span the reference was
extracted from. -/
def referenceExistsInTrace (allSpans : List FlatSpan) (reference : String) : Bool :=
  let ref_lower := pyStrip (pyLower reference)
  let words := (pySplitWs ref_lower).filter
    (fun w => w.length > 3 && !(REF_STOP_WORDS.contains w))
  if words.length < 2 then true
  else allSpans.any (fun fs =>
    let span_output := pyLower (pyStrOpt fs.data.output)
    let span_input := pyLower (pyStrOpt fs.data.input)
    let matchesInOutput := (words.filter (fun w => strContainsStr span_output w)).length
    let matchesInInput := (words.filter (fun w => strContainsStr span_input w)).length
    decide (matchesInOutput ≥ 2) || decide (matchesInInput ≥ 2))

/-- The `unverifiable_claim` failure record. -/
def unverifiableClaimFailure (sid sname claim parentSid : String) : Failure :=
  { ftype := "missing_context", subtype := "unverifiable_claim", severity := "medium",
    span_id := sid, span_name := sname,
    message := "Agent makes claim that cant be verified from parent context",
    evidence := [("claim", claim), ("parent_span", parentSid)] }

/-- The `missing_reference` failure record. -/
def missingReferenceFailure (sid sname ref : String) : Failure :=
  { ftype := "missing_context", subtype := "missing_reference", severity := "high",
    span_id := sid, span_name := sname,
    message := "Agent references data not found in trace",
    evidence := [("reference", ref)] }

/-- The reference loop of `_detect_missing_context`: a reference that does
not exist in the trace and whose cleaned form is unseen is added to the seen
set and reported. -/
def processRefs (allSpans : List FlatSpan) (sid sname : String) (seen : List String) :
    List String → List String × List Failure
  | [] => (seen, [])
  | ref :: rest =>
    let ref_clean := pyLower (pyStrip ref)
    if !(referenceExistsInTrace allSpans ref) && !(seen.contains ref_clean) then
      let p := processRefs allSpans sid sname (ref_clean :: seen) rest
      (p.1, missingReferenceFailure sid sname ref :: p.2)
    else processRefs allSpans sid sname seen rest

/-- The two missing-context checks for one span, threading the seen-set of
cleaned references. -/
def missingContextSpanRecords (allSpans : List FlatSpan) (fs : FlatSpan)
    (seen : List String) : List String × List Failure :=
  let d := fs.data
  let input_data := pyStrOpt d.input
  let output_data := pyStrOpt d.output
  let recs1 :=
    match fs.parent with
    | some p =>
      if d.span_type == "agent" then
        ((extractClaims output_data).filter
          (fun c => !(claimVerifiable c (pyStrOpt p.output) input_data))).map
          (fun c => unverifiableClaimFailure d.span_id d.name c p.span_id)
      else []
    | none => []
  let p2 :=
    if d.span_type == "agent" &&
        (strContainsStr (pyLower output_data) "based on" ||
         strContainsStr (pyLower output_data) "according to") then
      processRefs allSpans d.span_id d.name seen (findBasedOnRefs output_data)
    else (seen, [])
  (p2.1, recs1 ++ p2.2)

/-- The span loop of `_detect_missing_context`. -/
def missingContextGo (allSpans : List FlatSpan) (seen : List String) :
    List FlatSpan → List Failure
  | [] => []
  | fs :: rest =>
    let r := missingContextSpanRecords allSpans fs seen
    r.2 ++ missingContextGo allSpans r.1 rest

/-- `_detect_missing_context`: the records it appends to the report. -/
def detectMissingContext (allSpans : List FlatSpan) : List Failure :=
  missingContextGo allSpans [] allSpans

/-! ## Pass 4 — contract-violation detection

The source builds a per-workflow contract table (`social_media_contracts`,
`test_faulty_contracts`, or the empty dict) and then unconditionally indexes
`contracts["platform_writers"]["agent_names"]` (check 2) and
`contracts["content_strategist"]["max_duration_ms"]` (check 3).  Only the
social-media table has those keys, so for every other workflow type check 2
raises `KeyError`, which is modelled here by branching on the workflow type
and returning the error; the check-1 records computed before the raise are
discarded exactly as the source discards its local `violations` list. -/

/-- `min(agent_spans, key=start_time)`: leftmost minimum by start time
(Python string comparison is lexicographic by code point). -/
def minByStartTime : FlatSpan → List FlatSpan → FlatSpan
  | best, [] => best
  | best, x :: xs =>
    if pyStrLt x.data.start_time best.data.start_time then minByStartTime x xs
    else minByStartTime best xs

/-- The platform-writer names of `social_media_contracts["platform_writers"]`. -/
def PLATFORM_WRITERS : List String :=
  ["twitter_writer", "linkedin_writer", "instagram_writer", "facebook_writer"]

/-- The `execution_order` failure record (hard-coded to content_strategist
in the source). -/
def execOrderFailure (sid firstAgent : String) : Failure :=
  { ftype := "contract_violation", subtype := "execution_order", severity := "high",
    span_id := sid, span_name := "content_strategist",
    message := "Content Strategist must run first but didnt",
    evidence := [("first_agent", firstAgent), ("contract", "content_strategist.must_run_first")] }

/-- The `wrong_parent` failure record. -/
def wrongParentFailure (sid wname actualParent : String) : Failure :=
  { ftype := "contract_violation", subtype := "wrong_parent", severity := "high",
    span_id := sid, span_name := wname,
    message := "Platform writer must be child of social_media_workflow",
    evidence := [("actual_parent", actualParent), ("expected_parent", "social_media_workflow")] }

/-- The `duration_exceeded` failure record. -/
def durationExceededFailure (sid sname : String) (duration : Option Int) : Failure :=
  { ftype := "contract_violation", subtype := "duration_exceeded", severity := "low",
    span_id := sid, span_name := sname,
    message := "Agent exceeded maximum allowed duration",
    evidence := [("duration_ms", pyStrOptInt duration), ("max_allowed_ms", "30000")] }

/-- Contract check 1: if a span named content_strategist exists and the
earliest-starting agent span is not it, report an execution-order violation.
This check never consults the selected contract table. -/
def contractCheck1 (allSpans : List FlatSpan) : List Failure :=
  match allSpans.find? (fun fs => fs.data.name == "content_strategist") with
  | none => []
  | some st =>
    match allSpans.filter (fun fs => fs.data.span_type == "agent") with
    | [] => []
    | a :: rest =>
      let first_agent := minByStartTime a rest
      if first_agent.data.name != "content_strategist" then
        [execOrderFailure st.data.span_id first_agent.data.name]
      else []

/-- Contract check 2 (social-media path): each platform writer present must
have social_media_workflow as its direct parent. -/
def contractCheck2 (allSpans : List FlatSpan) : List Failure :=
  (PLATFORM_WRITERS.map (fun wname =>
    match allSpans.find? (fun fs => fs.data.name == wname) with
    | none => []
    | some w =>
      match w.parent with
      | none => [wrongParentFailure w.data.span_id wname "none"]
      | some p =>
        if p.name != "social_media_workflow" then
          [wrongParentFailure w.data.span_id wname p.name]
        else [])).flatten

/-- Contract check 3 (social-media path): content_strategist spans must not
exceed the configured duration ceiling; the comparison with a `null`
duration raises `TypeError`. -/
def contractCheck3Go : List FlatSpan → Except String (List Failure)
  | [] => Except.ok []
  | fs :: rest => do
    let here ←
      if fs.data.name == "content_strategist" then do
        let b ← pyGtOpt fs.data.duration_ms (some 30000)
        if b then pure [durationExceededFailure fs.data.span_id fs.data.name fs.data.duration_ms]
        else pure []
      else pure []
    let more ← contractCheck3Go rest
    pure (here ++ more)

/-- `_detect_contract_violations`: the records it appends to the report, or
the exception it raises (KeyError for every non-social-media workflow type). -/
def detectContractViolations (allSpans : List FlatSpan) (wt : String) :
    Except String (List Failure) :=
  let v1 := contractCheck1 allSpans
  if wt == "social_media" then do
    let v2 := contractCheck2 allSpans
    let v3 ← contractCheck3Go allSpans
    pure (v1 ++ v2 ++ v3)
  else Except.error "KeyError: platform_writers"

/-! ## Summary, scoring, and the full pipeline -/

/-- The summary object of a detection result.  `by_severity` is the three
fixed keys of the source's severity dict; `by_type` preserves the insertion
order of Python dict keys. -/
structure Summary where
  total_failures : Nat
  by_type : List (String × Nat)
  high : Nat
  medium : Nat
  low : Nat
  critical_issues : Nat
  health_score : Int
  deriving DecidableEq

/-- `_calculate_health_score`: start at 100, deduct 15 per high, 5 per
medium, 1 per low, clamp to the interval from 0 to 100.  The Python float
result is always integral, so it is modelled as an `Int`. -/
def calculateHealthScore (high medium low : Nat) : Int :=
  max 0 (min 100 (100 - 15 * (high : Int) - 5 * (medium : Int) - (low : Int)))

/-- Count of failures carrying a given severity. -/
def severityCount (failures : List Failure) (sev : String) : Nat :=
  (failures.filter (fun f => f.severity == sev)).length

/-- Python dict increment `d[k] = d.get(k, 0) + 1` preserving insertion
order. -/
def bumpKey : List (String × Nat) → String → List (String × Nat)
  | [], k => [(k, 1)]
  | (k', n) :: rest, k =>
    if k' == k then (k', n + 1) :: rest else (k', n) :: bumpKey rest k

/-- The `by_type` tally of `_generate_summary`. -/
def countsByType (failures : List Failure) : List (String × Nat) :=
  failures.foldl (fun acc f => bumpKey acc f.ftype) []

/-- The report state threaded through the passes (`detection_results`).  The
`detected_at` wall-clock timestamp of the source is not modelled. -/
structure DetectionResults where
  run_id : Option String
  has_failures : Bool
  failure_count : Nat
  failures : List Failure
  summary : Summary
  deriving DecidableEq

/-- The summary placeholder the report starts with (an empty dict in the
source). -/
def emptySummary : Summary :=
  { total_failures := 0, by_type := [], high := 0, medium := 0, low := 0,
    critical_issues := 0, health_score := 0 }

/-- The report as initialized in `__init__`. -/
def initResults (run_id : Option String) : DetectionResults :=
  { run_id := run_id, has_failures := false, failure_count := 0,
    failures := [], summary := emptySummary }

/-- The update every pass performs on the report: extend `failures`, add the
batch length to `failure_count`, and set `has_failures` when the batch is
nonempty. -/
def applyPass (r : DetectionResults) (new : List Failure) : DetectionResults :=
  { r with
    failures := r.failures ++ new
    failure_count := r.failure_count + new.length
    has_failures := r.has_failures || !new.isEmpty }

/-- `_generate_summary`. -/
def generateSummary (r : DetectionResults) : Summary :=
  let h := severityCount r.failures "high"
  let m := severityCount r.failures "medium"
  let l := severityCount r.failures "low"
  { total_failures := r.failure_count
    by_type := countsByType r.failures
    high := h
    medium := m
    low := l
    critical_issues := h
    health_score := calculateHealthScore h m l }

/-- `CoordinationFailureDetector` construction plus `detect_all`: infer the
workflow type, flatten the trace, run the four passes in order (each pass's
records extend the report as in `applyPass`), then attach the summary.  A
raised exception propagates out of `detect_all`, leaving no report. -/
def detectAllFrom (allSpans : List FlatSpan) (wt : String) (run_id : Option String) :
    Except String DetectionResults :=
  let r1 := applyPass (initResults run_id) (detectHallucinations allSpans wt)
  match detectLogicalInconsistencies allSpans with
  | Except.error e => Except.error e
  | Except.ok l2 =>
    let r2 := applyPass r1 l2
    let r3 := applyPass r2 (detectMissingContext allSpans)
    match detectContractViolations allSpans wt with
    | Except.error e => Except.error e
    | Except.ok l4 =>
      let r4 := applyPass r3 l4
      Except.ok { r4 with summary := generateSummary r4 }

/-- `detect_all` on the detector's inputs: workflow-type inference and
flattening happen in `__init__`, the passes in `detect_all`. -/
def detectAll (trace : Option SpanNode) (run_id : Option String) :
    Except String DetectionResults :=
  detectAllFrom (match trace with | none => [] | some t => flattenSpan none t)
    (detectWorkflowType trace) run_id

/-! ## Derived notions used by the theorems -/

/-- The API paths the invented-API check extracts from a span's output. -/
def apiRefsOf (d : SpanData) : List String :=
  findApiRefs (pyStrOpt d.output)

/-- An `invented_api` failure record whose claimed path is `p`. -/
def isInventedApiFor (p : String) (f : Failure) : Bool :=
  f.subtype == "invented_api" && (f.evidence.lookup "claimed_api" == some p)

/-- The two-part consistency invariant of the report counters. -/
def reportConsistent (r : DetectionResults) : Prop :=
  r.failure_count = r.failures.length ∧ (r.has_failures = true ↔ 0 < r.failure_count)

/-! ## Concrete traces used as witnesses and failing inputs -/

/-- A completed single-span trace whose workflow type is inferred as
"unknown" (no keyword in the root name, no metadata, no children). -/
def exTrace1 : SpanNode :=
  .node
    { span_id := "r1"
      name := "my workflow"
      span_type := "root"
      status := "success"
      start_time := "2024-01-01T00:00:00"
      duration_ms := some 100 }
    []

/-- A trace whose child span was never ended: it is still `running` with a
null end time and null duration. -/
def exTrace2 : SpanNode :=
  .node
    { span_id := "r2"
      name := "my workflow"
      span_type := "root"
      status := "success"
      start_time := "2024-01-01T00:00:00"
      duration_ms := some 50 }
    [.node
      { span_id := "c2"
        name := "worker"
        span_type := "agent"
        status := "running"
        start_time := "2024-01-01T00:00:01"
        duration_ms := none }
      []]

/-- The faulty-multiagent trace shape of `test_faulty_multiagent.py`: the
workflow type is declared in the root metadata, and the data_collector agent
starts before the analyzer agent that the contract table requires to run
first. -/
def exTrace3 : SpanNode :=
  .node
    { span_id := "r3"
      name := "faulty_analysis_workflow"
      span_type := "root"
      status := "success"
      start_time := "2024-01-01T00:00:00"
      duration_ms := some 1000
      metadata := [("workflow_type", "test_faulty_multiagent")] }
    [.node
      { span_id := "a3"
        name := "data_collector"
        span_type := "agent"
        status := "success"
        start_time := "2024-01-01T00:00:01"
        duration_ms := some 100 }
      [],
     .node
      { span_id := "b3"
        name := "analyzer"
        span_type := "agent"
        status := "success"
        start_time := "2024-01-01T00:00:02"
        duration_ms := some 100 }
      []]

/-- Scenario D of the spec: an agent span whose output claims to be "based
on the quarterly survey" while no other span's input or output mentions
those words. -/
def exTrace4 : SpanNode :=
  .node
    { span_id := "r4"
      name := "analysis_workflow"
      span_type := "root"
      status := "success"
      start_time := "2024-01-01T00:00:00"
      duration_ms := some 1000 }
    [.node
      { span_id := "c4"
        name := "reporter"
        span_type := "agent"
        status := "success"
        start_time := "2024-01-01T00:00:01"
        duration_ms := some 100
        output := some "Revenue grew based on the quarterly survey. End of report." }
      []]

/-- Two flattened spans whose outputs both mention the same invented API
path. -/
def exSpansC5 : List FlatSpan :=
  [{ data :=
      { span_id := "s1"
        name := "alpha"
        span_type := "agent"
        status := "success"
        start_time := "2024-01-01T00:00:00"
        duration_ms := some 10
        output := some "call /api/fake_metrics now" }
     parent := none },
   { data :=
      { span_id := "s2"
        name := "beta"
        span_type := "agent"
        status := "success"
        start_time := "2024-01-01T00:00:01"
        duration_ms := some 10
        output := some "use /api/fake_metrics again" }
     parent := none }]

/-- A social-media trace on which `detect_all` completes, containing one
invalid-model failure. -/
def exTraceOk : SpanNode :=
  .node
    { span_id := "r6"
      name := "social_media_demo"
      span_type := "root"
      status := "success"
      start_time := "2024-01-01T00:00:00"
      duration_ms := some 1000 }
    [.node
      { span_id := "c6"
        name := "writer"
        span_type := "agent"
        status := "success"
        start_time := "2024-01-01T00:00:01"
        duration_ms := some 100
        model := some "gpt-5" }
      []]

/-- The report produced by `detect_all` on `exTraceOk`. -/
def exReportOk : DetectionResults :=
  match detectAll (some exTraceOk) none with
  | Except.ok r => r
  | Except.error _ => initResults none

/-- A tracer span used by the span-end witness. -/
def exTSpan : TSpan :=
  mkSpan "agent_a" SpanType.agent none [] "sid-1" 0

/-- A tracer on which a root span has already been started. -/
def exTracer1 : TracerState :=
  startRootSpan (initTracer "run-1") "first_root" [] "id-1" 0

/-- The same tracer after a second `start_root_span` call. -/
def exTracer2 : TracerState :=
  startRootSpan exTracer1 "second_root" [] "id-2" 1

/-- A root whose name carries the social_media keyword while its metadata
declares a different workflow type. -/
def exRootNameWins : SpanNode :=
  .node { name := "Social_Media_Run", metadata := [("workflow_type", "debate")] } []

/-- A root whose name carries the debate keyword while its metadata declares
a different workflow type. -/
def exRootDebate : SpanNode :=
  .node { name := "debate_arena", metadata := [("workflow_type", "social_media")] } []

/-- A root with no name keyword whose metadata declares a workflow type,
with a child that would match a platform keyword. -/
def exRootMetaWins : SpanNode :=
  .node { name := "pipeline", metadata := [("workflow_type", "custom_type")] }
    [.node { name := "twitter_writer" } []]

/-- A root with no name keyword, no metadata workflow type, and no matching
child names. -/
def exRootUnknown : SpanNode :=
  .node { name := "pipeline" } [.node { name := "collector" } []]

/-! ## Theorems -/

/-- C1: the claim that `detect_all` never raises for a workflow type with no
contract table is violated by the code: on a completed trace of type
"unknown" the contract-violation pass evaluates the platform_writers key of
the empty contract table and raises KeyError, so no report is returned. -/
theorem detect_all_raises_keyerror_on_unknown_workflow :
    detectWorkflowType (some exTrace1) = "unknown"
    ∧ detectAll (some exTrace1) none = Except.error "KeyError: platform_writers" :=
  ⟨rfl, rfl⟩

/-- C2: the claim that a still-running span (null end time and duration) is
excluded from the duration checks and detection completes is violated by the
code: the logical-inconsistency pass compares the running child's null
duration with its parent's and raises TypeError. -/
theorem detect_all_raises_typeerror_on_running_span :
    (flattenSpan none exTrace2).any
        (fun fs => fs.data.status == "running" && fs.data.duration_ms == none) = true
    ∧ detectAll (some exTrace2) none
        = Except.error "TypeError: unsupported comparison with NoneType" :=
  ⟨rfl, rfl⟩

/-- C3: the claim that a contract requiring the analyzer agent to run first
yields exactly one high-severity execution_order record is violated by the
code: on the faulty-multiagent trace (whose contract table does require
analyzer to run first, and where data_collector starts earlier) the
execution-order check only ever looks for content_strategist, and the pass
then raises KeyError on the missing platform_writers key, so no
execution_order record is ever produced. -/
theorem execution_order_contract_never_checked_for_analyzer :
    detectWorkflowType (some exTrace3) = "test_faulty_multiagent"
    ∧ (match (flattenSpan none exTrace3).filter (fun fs => fs.data.span_type == "agent") with
       | a :: rest => (minByStartTime a rest).data.name
       | [] => "") = "data_collector"
    ∧ detectAll (some exTrace3) none = Except.error "KeyError: platform_writers" :=
  ⟨rfl, by decide, rfl⟩

/-- C4: the claim that an agent output "based on the quarterly survey", with
those words absent from every other span, yields exactly one missing_reference
record is violated by the code: `_reference_exists_in_trace` scans all spans
including the claiming span itself, whose own output always contains the
extracted words, so the missing-context pass emits no missing_reference
record at all on the Scenario-D trace. -/
theorem missing_reference_never_emitted_on_scenario_d :
    (flattenSpan none exTrace4).any
        (fun fs => strContainsStr (pyStrOpt fs.data.output) "based on the quarterly survey") = true
    ∧ ((flattenSpan none exTrace4).filter (fun fs => !(fs.data.span_id == "c4"))).all
        (fun fs =>
          !(strContainsStr (pyLower (pyStrOpt fs.data.output)) "quarterly")
          && !(strContainsStr (pyLower (pyStrOpt fs.data.output)) "survey")
          && !(strContainsStr (pyLower (pyStrOpt fs.data.input)) "quarterly")
          && !(strContainsStr (pyLower (pyStrOpt fs.data.input)) "survey")) = true
    ∧ (detectMissingContext (flattenSpan none exTrace4)).filter
        (fun f => f.subtype == "missing_reference") = [] :=
  ⟨rfl, rfl, rfl⟩

/-- C7: ending a span with a non-empty error string forces its final status
to error regardless of the requested status, and ending it with no error
string leaves the requested status in place. -/
theorem endSpan_error_downgrades_status (s : TSpan) (now : ℚ) (status : SpanStatus)
    (e : String) (he : e ≠ "") :
    (endSpan s now status (some e)).status = SpanStatus.error
    ∧ (endSpan s now status none).status = status := by
  constructor
  · have ht : pyTruthy (some e) = true := by
      simp [pyTruthy, he]
    simp [endSpan, ht]
  · simp [endSpan, pyTruthy]

/-- Witness for C7 at a concrete span, requested status `success`, error
string "boom". -/
theorem endSpan_error_downgrades_status_witness :
    (endSpan exTSpan 2 SpanStatus.success (some "boom")).status = SpanStatus.error
    ∧ (endSpan exTSpan 2 SpanStatus.success none).status = SpanStatus.success :=
  endSpan_error_downgrades_status exTSpan 2 SpanStatus.success "boom" (by decide)

/-- C9 counterexample: `start_root_span` has no already-started guard — on a
tracer whose root is already started, a second call succeeds, creates a new
span and installs it as the root, rather than being rejected. -/
theorem start_root_twice_not_rejected_counterexample :
    exTracer1.root_span.isSome = true
    ∧ exTracer2.root_span.map (fun s => s.name) = some "second_root"
    ∧ exTracer2.all_spans.length = 2 :=
  ⟨rfl, rfl, rfl⟩

/-- C9 (amended): calling `start_root_span` again on a tracer whose root
span has already been started does not fail: it creates a fresh root span,
replaces the tracer's root with it, and appends it to the flat span list
(the previous root stays in the list). -/
theorem start_root_second_call_replaces_root (t : TracerState)
    (_h : t.root_span ≠ none) (name : String) (md : List (String × String))
    (sid : String) (now : ℚ) :
    (startRootSpan t name md sid now).root_span
        = some (mkSpan name SpanType.root none md sid now)
    ∧ (startRootSpan t name md sid now).all_spans
        = t.all_spans ++ [mkSpan name SpanType.root none md sid now] :=
  ⟨rfl, rfl⟩

/-- Witness for the amended C9 on a tracer with a started root. -/
theorem start_root_second_call_replaces_root_witness :
    (startRootSpan exTracer1 "second_root" [] "id-2" 1).root_span
        = some (mkSpan "second_root" SpanType.root none [] "id-2" 1)
    ∧ (startRootSpan exTracer1 "second_root" [] "id-2" 1).all_spans
        = exTracer1.all_spans ++ [mkSpan "second_root" SpanType.root none [] "id-2" 1] :=
  start_root_second_call_replaces_root exTracer1 (by decide) "second_root" [] "id-2" 1

/-- Prepending a failure raises the severity tally by one exactly for its
own severity. -/
theorem severityCount_cons (f : Failure) (fs : List Failure) (sev : String) :
    severityCount (f :: fs) sev
      = (if f.severity == sev then 1 else 0) + severityCount fs sev := by
  unfold severityCount
  rw [List.filter_cons]
  by_cases h : (f.severity == sev) = true
  · simp [h, Nat.add_comm]
  · simp [h]

/-- The clamped score is antitone in each severity count and stays in the
interval from 0 to 100. -/
theorem calculateHealthScore_le (h1 h2 m1 m2 l1 l2 : Nat)
    (hh : h1 ≤ h2) (hm : m1 ≤ m2) (hl : l1 ≤ l2) :
    calculateHealthScore h2 m2 l2 ≤ calculateHealthScore h1 m1 l1 := by
  unfold calculateHealthScore
  apply max_le_max (le_refl 0)
  apply min_le_min (le_refl 100)
  have hh' : (h1 : Int) ≤ (h2 : Int) := by exact_mod_cast hh
  have hm' : (m1 : Int) ≤ (m2 : Int) := by exact_mod_cast hm
  have hl' : (l1 : Int) ≤ (l2 : Int) := by exact_mod_cast hl
  omega

/-- C6: the summary's health score equals 100 minus 15 per high-severity
failure, 5 per medium, 1 per low, clamped to the interval from 0 to 100;
hence it never increases when a failure is added, and always lies between 0
and 100. -/
theorem health_score_formula_monotone_bounded (r : DetectionResults) (f : Failure) :
    (generateSummary r).health_score
        = max 0 (min 100 (100 - 15 * (severityCount r.failures "high" : Int)
            - 5 * (severityCount r.failures "medium" : Int)
            - (severityCount r.failures "low" : Int)))
    ∧ (generateSummary { r with failures := f :: r.failures }).health_score
        ≤ (generateSummary r).health_score
    ∧ 0 ≤ (generateSummary r).health_score
    ∧ (generateSummary r).health_score ≤ 100 := by
  refine ⟨rfl, ?_, ?_, ?_⟩
  · show calculateHealthScore _ _ _ ≤ calculateHealthScore _ _ _
    apply calculateHealthScore_le <;>
      · rw [severityCount_cons]
        split <;> omega
  · exact le_max_left 0 _
  · exact max_le (by norm_num) (min_le_left _ _)

/-- The child-name scan returns nothing when no child name carries a
workflow keyword. -/
theorem childWorkflowScan_eq_none (cs : List SpanNode)
    (h : ∀ c ∈ cs,
      strContainsStr (pyLower c.data.name) "research_agent" = false ∧
      strContainsStr (pyLower c.data.name) "debate_agent" = false ∧
      ∀ p ∈ PLATFORM_KEYWORDS, strContainsStr (pyLower c.data.name) p = false) :
    childWorkflowScan cs = none := by
  induction cs with
  | nil => rfl
  | cons c cs ih =>
    obtain ⟨h1, h2, h3⟩ := h c (List.mem_cons_self c cs)
    have hp : (PLATFORM_KEYWORDS.any fun p => strContainsStr (pyLower c.data.name) p) = false :=
      List.any_eq_false.mpr (fun p hp => by simp [h3 p hp])
    have ih' := ih (fun c' hc' => h c' (List.mem_cons_of_mem c hc'))
    simp [childWorkflowScan, h1, h2, hp, ih']

/-- C8: workflow-type inference is first-match-wins in priority order — a
keyword substring in the root name decides the type before the root
metadata's workflow_type field is consulted (so a root name keyword wins
even when the metadata declares a different type), which in turn decides
before any direct child name is matched, and when nothing matches the
result is "unknown". -/
theorem workflow_type_inference_priority :
    (∀ t : SpanNode, strContainsStr (pyLower t.data.name) "social_media" = true →
        detectWorkflowType (some t) = "social_media")
    ∧ (∀ t : SpanNode, strContainsStr (pyLower t.data.name) "social_media" = false →
        strContainsStr (pyLower t.data.name) "debate" = true →
        detectWorkflowType (some t) = "debate")
    ∧ (∀ t : SpanNode, strContainsStr (pyLower t.data.name) "social_media" = false →
        strContainsStr (pyLower t.data.name) "debate" = false →
        lookupD t.data.metadata "workflow_type" "" ≠ "" →
        detectWorkflowType (some t) = lookupD t.data.metadata "workflow_type" "")
    ∧ (∀ t : SpanNode, strContainsStr (pyLower t.data.name) "social_media" = false →
        strContainsStr (pyLower t.data.name) "debate" = false →
        lookupD t.data.metadata "workflow_type" "" = "" →
        (∀ c ∈ t.children,
          strContainsStr (pyLower c.data.name) "research_agent" = false ∧
          strContainsStr (pyLower c.data.name) "debate_agent" = false ∧
          ∀ p ∈ PLATFORM_KEYWORDS, strContainsStr (pyLower c.data.name) p = false) →
        detectWorkflowType (some t) = "unknown") := by
  refine ⟨?_, ?_, ?_, ?_⟩
  · intro t h1
    simp [detectWorkflowType, h1]
  · intro t h1 h2
    simp [detectWorkflowType, h1, h2]
  · intro t h1 h2 h3
    have h3' : (lookupD t.data.metadata "workflow_type" "" != "") = true := by
      simpa using h3
    simp [detectWorkflowType, h1, h2, h3']
  · intro t h1 h2 h3 h4
    have hscan := childWorkflowScan_eq_none t.children h4
    simp [detectWorkflowType, h1, h2, h3, hscan]

/-- Witness for C8: each priority rule applied at a concrete root. -/
theorem workflow_type_inference_priority_witness :
    detectWorkflowType (some exRootNameWins) = "social_media"
    ∧ detectWorkflowType (some exRootDebate) = "debate"
    ∧ detectWorkflowType (some exRootMetaWins) = "custom_type"
    ∧ detectWorkflowType (some exRootUnknown) = "unknown" :=
  ⟨workflow_type_inference_priority.1 exRootNameWins (by decide),
   workflow_type_inference_priority.2.1 exRootDebate (by decide) (by decide),
   workflow_type_inference_priority.2.2.1 exRootMetaWins (by decide) (by decide) (by decide),
   workflow_type_inference_priority.2.2.2 exRootUnknown (by decide) (by decide) (by decide)
     (by decide)⟩

/-- Every pass's report update keeps the counter invariant: the count tracks
the list length and the flag tracks positivity of the count. -/
theorem applyPass_consistent (r : DetectionResults) (new : List Failure)
    (h : reportConsistent r) : reportConsistent (applyPass r new) := by
  obtain ⟨hc, hf⟩ := h
  constructor
  · simp [applyPass, hc]
  · cases new with
    | nil => simpa [applyPass] using hf
    | cons a as => simp [applyPass]

/-- The report the detector starts from satisfies the counter invariant. -/
theorem initResults_consistent (run_id : Option String) :
    reportConsistent (initResults run_id) := by
  constructor
  · rfl
  · simp [initResults, reportConsistent]

/-- Any report the pass pipeline returns satisfies the counter invariant and
carries its own count as the summary total. -/
theorem detectAllFrom_ok_consistent (allSpans : List FlatSpan) (wt : String)
    (run_id : Option String) (r : DetectionResults)
    (h : detectAllFrom allSpans wt run_id = Except.ok r) :
    reportConsistent r ∧ r.summary.total_failures = r.failure_count := by
  unfold detectAllFrom at h
  cases hl : detectLogicalInconsistencies allSpans with
  | error e => rw [hl] at h; simp at h
  | ok l2 =>
    rw [hl] at h
    cases hc : detectContractViolations allSpans wt with
    | error e => rw [hc] at h; simp at h
    | ok l4 =>
      rw [hc] at h
      simp only [Except.ok.injEq] at h
      subst h
      refine ⟨?_, rfl⟩
      have h1 := applyPass_consistent (initResults run_id)
        (detectHallucinations allSpans wt) (initResults_consistent run_id)
      have h2 := applyPass_consistent _ l2 h1
      have h3 := applyPass_consistent _ (detectMissingContext allSpans) h2
      exact applyPass_consistent _ l4 h3

/-- C10: the report-consistency invariant is kept by every detection pass
(the pass update preserves it), and any report returned by `detect_all`
satisfies it, with the summary's total_failures equal to failure_count. -/
theorem detect_all_report_invariant :
    (∀ (r : DetectionResults) (new : List Failure),
        reportConsistent r → reportConsistent (applyPass r new))
    ∧ ∀ (trace : Option SpanNode) (run_id : Option String) (r : DetectionResults),
        detectAll trace run_id = Except.ok r →
        reportConsistent r ∧ r.summary.total_failures = r.failure_count := by
  refine ⟨applyPass_consistent, ?_⟩
  intro trace run_id r h
  exact detectAllFrom_ok_consistent _ _ run_id r h

/-- Witness for C10 on a trace whose detection completes with one failure. -/
theorem detect_all_report_invariant_witness :
    reportConsistent exReportOk
    ∧ exReportOk.summary.total_failures = exReportOk.failure_count :=
  detect_all_report_invariant.2 (some exTraceOk) none exReportOk rfl

/-- An invented-API record matches the path it was built from. -/
theorem isInventedApiFor_inventedApi (p sid sname r : String) :
    isInventedApiFor p (inventedApiFailure sid sname r) = (r == p) := by
  by_cases h : r = p
  · subst h
    simp [isInventedApiFor, inventedApiFailure, List.lookup]
  · have h1 : (r == p) = false := beq_eq_false_iff_ne.mpr h
    have h2 : ((some r : Option String) == some p) = false := by
      rw [beq_eq_false_iff_ne]
      simpa using h
    simp [isInventedApiFor, inventedApiFailure, List.lookup, h1, h2]

/-- Records of the other hallucination checks never match an invented API
path. -/
theorem isInventedApiFor_other (p : String) :
    (∀ sid sname m wt, isInventedApiFor p (invalidModelFailure sid sname m wt) = false)
    ∧ (∀ sid sname st, isInventedApiFor p (invalidSpanTypeFailure sid sname st) = false)
    ∧ (∀ sid sname field, isInventedApiFor p (inventedFieldFailure sid sname field) = false) := by
  refine ⟨?_, ?_, ?_⟩ <;> intros <;>
    simp [isInventedApiFor, invalidModelFailure, invalidSpanTypeFailure, inventedFieldFailure]

/-- The invented-API loop adds an invalid path to the seen set exactly when
it was already seen or occurs among the processed references. -/
theorem processApiRefs_seen (sid sname p : String) (hval : isValidApi p = false) :
    ∀ (refs seen : List String),
      p ∈ (processApiRefs sid sname seen refs).1 ↔ (p ∈ seen ∨ p ∈ refs) := by
  intro refs
  induction refs with
  | nil => intro seen; simp [processApiRefs]
  | cons r rs ih =>
    intro seen
    by_cases h2 : r ∈ seen
    · have hcond : ¬((!(isValidApi r) && !(seen.contains r)) = true) := by simp [h2]
      rw [processApiRefs, if_neg hcond]
      have hpr : p = r → p ∈ seen := fun he => he ▸ h2
      rw [ih seen]
      simp only [List.mem_cons]
      tauto
    · by_cases h1 : isValidApi r = true
      · have hcond : ¬((!(isValidApi r) && !(seen.contains r)) = true) := by simp [h1]
        rw [processApiRefs, if_neg hcond]
        have hpr : p ≠ r := by
          intro he
          rw [he, h1] at hval
          cases hval
        rw [ih seen]
        simp only [List.mem_cons]
        tauto
      · have h1' : isValidApi r = false := by
          cases hc : isValidApi r with
          | false => rfl
          | true => exact absurd hc h1
        have hcond : (!(isValidApi r) && !(seen.contains r)) = true := by simp [h1', h2]
        rw [processApiRefs, if_pos hcond]
        show p ∈ (processApiRefs sid sname (r :: seen) rs).1 ↔ _
        rw [ih (r :: seen)]
        simp only [List.mem_cons]
        tauto

/-- The invented-API loop reports an invalid path exactly once when it
occurs among the references and was not seen before, and never otherwise. -/
theorem processApiRefs_count (sid sname p : String) (hval : isValidApi p = false) :
    ∀ (refs seen : List String),
      ((processApiRefs sid sname seen refs).2.filter (isInventedApiFor p)).length
        = (if p ∈ seen then 0 else if p ∈ refs then 1 else 0) := by
  intro refs
  induction refs with
  | nil =>
    intro seen
    simp [processApiRefs]
  | cons r rs ih =>
    intro seen
    by_cases h2 : r ∈ seen
    · have hcond : ¬((!(isValidApi r) && !(seen.contains r)) = true) := by simp [h2]
      rw [processApiRefs, if_neg hcond]
      rw [ih seen]
      by_cases hrp : p = r
      · have hps : p ∈ seen := hrp ▸ h2
        simp [hps]
      · simp only [List.mem_cons]
        have : (p ∈ seen ∨ p = r ∨ p ∈ rs) ↔ (p ∈ seen ∨ p ∈ rs) := by tauto
        by_cases hs : p ∈ seen
        · simp [hs]
        · simp [hs, hrp]
    · by_cases h1 : isValidApi r = true
      · have hcond : ¬((!(isValidApi r) && !(seen.contains r)) = true) := by simp [h1]
        rw [processApiRefs, if_neg hcond]
        rw [ih seen]
        have hpr : p ≠ r := by
          intro he
          rw [he, h1] at hval
          cases hval
        simp [List.mem_cons, hpr]
      · have h1' : isValidApi r = false := by
          cases hc : isValidApi r with
          | false => rfl
          | true => exact absurd hc h1
        have hcond : (!(isValidApi r) && !(seen.contains r)) = true := by simp [h1', h2]
        rw [processApiRefs, if_pos hcond]
        show ((inventedApiFailure sid sname r
            :: (processApiRefs sid sname (r :: seen) rs).2).filter (isInventedApiFor p)).length = _
        rw [List.filter_cons, isInventedApiFor_inventedApi]
        by_cases hrp : r = p
        · subst hrp
          have hhead : ((r == r) = true) := beq_self_eq_true r
          rw [if_pos hhead, List.length_cons, ih (r :: seen)]
          simp [List.mem_cons, h2]
        · have hbe : ¬((r == p) = true) := by simp [hrp]
          rw [if_neg hbe, ih (r :: seen)]
          have hpr : p ≠ r := Ne.symm hrp
          simp [List.mem_cons, hpr]

/-- Every record the invented-API loop produces names the span it was called
for. -/
theorem processApiRefs_ids (sid sname : String) :
    ∀ (refs seen : List String) (f : Failure),
      f ∈ (processApiRefs sid sname seen refs).2 →
      f.span_id = sid ∧ f.span_name = sname := by
  intro refs
  induction refs with
  | nil => intro seen f hf; simp [processApiRefs] at hf
  | cons r rs ih =>
    intro seen f hf
    by_cases hv : (!(isValidApi r) && !(seen.contains r)) = true
    · rw [processApiRefs, if_pos hv] at hf
      rcases List.mem_cons.mp hf with h | h
      · subst h; exact ⟨rfl, rfl⟩
      · exact ih (r :: seen) f h
    · rw [processApiRefs, if_neg hv] at hf
      exact ih seen f hf

/-- The invented-field loop never produces a record matching an API path. -/
theorem processFields_filter_api (allSpans : List FlatSpan) (sid sname p : String) :
    ∀ (refs seen : List String),
      ((processFields allSpans sid sname seen refs).2.filter (isInventedApiFor p)) = [] := by
  intro refs
  induction refs with
  | nil => intro seen; simp [processFields]
  | cons r rs ih =>
    intro seen
    by_cases hv : (!(fieldExistsInTrace allSpans r) && !(seen.contains r)) = true
    · rw [processFields, if_pos hv]
      show ((inventedFieldFailure sid sname r
          :: (processFields allSpans sid sname (r :: seen) rs).2).filter (isInventedApiFor p)) = _
      rw [List.filter_cons]
      simp only [(isInventedApiFor_other p).2.2, Bool.false_eq_true, if_false]
      exact ih (r :: seen)
    · rw [processFields, if_neg hv]
      exact ih seen

/-- Among one span's hallucination records, only the invented-API loop can
contribute records matching an API path. -/
theorem hallucinationSpanRecords_filter (allSpans : List FlatSpan)
    (validModels : List String) (wt : String) (fs : FlatSpan)
    (seenA seenF : List String) (p : String) :
    ((hallucinationSpanRecords allSpans validModels wt fs seenA seenF).2.2.filter
        (isInventedApiFor p))
      = ((processApiRefs fs.data.span_id fs.data.name seenA
          (apiRefsOf fs.data)).2.filter (isInventedApiFor p)) := by
  have hr1 : (modelCheckRecords validModels wt fs.data).filter (isInventedApiFor p) = [] := by
    unfold modelCheckRecords
    cases fs.data.model with
    | none => rfl
    | some m =>
      by_cases hm1 : (m == "") = true
      · simp [hm1]
      · by_cases hm2 : validModels.contains m = true
        · simp [hm1, hm2, (isInventedApiFor_other p).1]
        · simp [hm1, hm2, (isInventedApiFor_other p).1]
  have hr2 : (spanTypeCheckRecords fs.data).filter (isInventedApiFor p) = [] := by
    unfold spanTypeCheckRecords
    split
    · simp [(isInventedApiFor_other p).2.1]
    · rfl
  have hr4 : ((fieldCheck allSpans fs.data seenF).2.filter (isInventedApiFor p)) = [] := by
    unfold fieldCheck
    split
    · exact processFields_filter_api allSpans _ _ p _ seenF
    · rfl
  show ((modelCheckRecords validModels wt fs.data ++ spanTypeCheckRecords fs.data
      ++ (processApiRefs fs.data.span_id fs.data.name seenA (apiRefsOf fs.data)).2
      ++ (fieldCheck allSpans fs.data seenF).2).filter (isInventedApiFor p)) = _
  rw [List.filter_append, List.filter_append, List.filter_append, hr1, hr2, hr4]
  simp

/-- Every matching record one span contributes names that span. -/
theorem hallucinationSpanRecords_ids (allSpans : List FlatSpan)
    (validModels : List String) (wt : String) (fs : FlatSpan)
    (seenA seenF : List String) (p : String) (f : Failure)
    (hf : f ∈ (hallucinationSpanRecords allSpans validModels wt fs seenA seenF).2.2.filter
        (isInventedApiFor p)) :
    f.span_id = fs.data.span_id ∧ f.span_name = fs.data.name := by
  rw [hallucinationSpanRecords_filter] at hf
  exact processApiRefs_ids fs.data.span_id fs.data.name (apiRefsOf fs.data) seenA f
    (List.mem_of_mem_filter hf)

/-- The seen-API set after one span is the old set extended by the span's
own invalid references. -/
theorem hallucinationSpanRecords_seen (allSpans : List FlatSpan)
    (validModels : List String) (wt : String) (fs : FlatSpan)
    (seenA seenF : List String) (p : String) (hval : isValidApi p = false) :
    (p ∈ (hallucinationSpanRecords allSpans validModels wt fs seenA seenF).1
      ↔ (p ∈ seenA ∨ p ∈ apiRefsOf fs.data)) :=
  processApiRefs_seen fs.data.span_id fs.data.name p hval (apiRefsOf fs.data) seenA

/-- The span loop reports an invalid path once when some remaining span
references it and it is unseen, and never otherwise. -/
theorem hallucinationGo_count (allSpans : List FlatSpan) (validModels : List String)
    (wt p : String) (hval : isValidApi p = false) :
    ∀ (rest : List FlatSpan) (seenA seenF : List String),
      ((hallucinationGo allSpans validModels wt seenA seenF rest).filter
          (isInventedApiFor p)).length
        = (if p ∈ seenA then 0
           else if (∃ fs ∈ rest, p ∈ apiRefsOf fs.data) then 1 else 0) := by
  intro rest
  induction rest with
  | nil =>
    intro seenA seenF
    simp [hallucinationGo]
  | cons fs rest ih =>
    intro seenA seenF
    rw [hallucinationGo]
    rw [List.filter_append, List.length_append]
    rw [hallucinationSpanRecords_filter, processApiRefs_count _ _ p hval]
    have hseen := hallucinationSpanRecords_seen allSpans validModels wt fs seenA seenF p hval
    by_cases hA : p ∈ seenA
    · have hA' : p ∈ (hallucinationSpanRecords allSpans validModels wt fs seenA seenF).1 :=
        hseen.mpr (Or.inl hA)
      rw [ih]
      simp [hA, hA']
    · by_cases hR : p ∈ apiRefsOf fs.data
      · have hA' : p ∈ (hallucinationSpanRecords allSpans validModels wt fs seenA seenF).1 :=
          hseen.mpr (Or.inr hR)
        rw [ih]
        have hex : ∃ x ∈ fs :: rest, p ∈ apiRefsOf x.data :=
          ⟨fs, List.mem_cons_self fs rest, hR⟩
        simp [hA, hA', hR, hex]
      · have hA' : p ∉ (hallucinationSpanRecords allSpans validModels wt fs seenA seenF).1 := by
          intro hmem
          rcases hseen.mp hmem with h | h
          · exact hA h
          · exact hR h
        rw [ih]
        have hex : (∃ x ∈ fs :: rest, p ∈ apiRefsOf x.data)
            ↔ (∃ x ∈ rest, p ∈ apiRefsOf x.data) := by
          constructor
          · rintro ⟨x, hx, hpx⟩
            rcases List.mem_cons.mp hx with h | h
            · exact absurd (h ▸ hpx) hR
            · exact ⟨x, h, hpx⟩
          · rintro ⟨x, hx, hpx⟩
            exact ⟨x, List.mem_cons_of_mem fs hx, hpx⟩
        by_cases hrest : ∃ x ∈ rest, p ∈ apiRefsOf x.data
        · simp [hA, hA', hR, hex, hrest]
        · simp [hA, hA', hR, hex, hrest]

/-- Bridge from membership to the Bool `contains` of the embedding. -/
theorem contains_of_mem {a : String} {l : List String} (h : a ∈ l) :
    l.contains a = true := by
  simpa using h

/-- Bridge from the Bool `contains` to membership. -/
theorem mem_of_contains {a : String} {l : List String} (h : l.contains a = true) :
    a ∈ l := by
  simpa using h

/-- Every matching record the span loop emits for an unseen invalid path is
attributed to the first remaining span referencing that path. -/
theorem hallucinationGo_attrib (allSpans : List FlatSpan) (validModels : List String)
    (wt p : String) (hval : isValidApi p = false) :
    ∀ (rest : List FlatSpan) (seenA seenF : List String), p ∉ seenA →
      ∀ f ∈ (hallucinationGo allSpans validModels wt seenA seenF rest).filter
          (isInventedApiFor p),
        ∃ fs, rest.find? (fun s => (apiRefsOf s.data).contains p) = some fs
          ∧ f.span_id = fs.data.span_id ∧ f.span_name = fs.data.name := by
  intro rest
  induction rest with
  | nil =>
    intro seenA seenF hA f hf
    simp [hallucinationGo] at hf
  | cons fs rest ih =>
    intro seenA seenF hA f hf
    rw [hallucinationGo, List.filter_append] at hf
    rcases List.mem_append.mp hf with hmem | hmem
    · have hR : p ∈ apiRefsOf fs.data := by
        by_contra hR
        have hcount := processApiRefs_count fs.data.span_id fs.data.name p hval
          (apiRefsOf fs.data) seenA
        rw [hallucinationSpanRecords_filter] at hmem
        rw [if_neg hA, if_neg hR] at hcount
        rw [List.length_eq_zero.mp hcount] at hmem
        exact absurd hmem (List.not_mem_nil f)
      have hids := hallucinationSpanRecords_ids allSpans validModels wt fs seenA seenF p f hmem
      refine ⟨fs, ?_, hids⟩
      exact List.find?_cons_of_pos rest (contains_of_mem hR)
    · have hseen := hallucinationSpanRecords_seen allSpans validModels wt fs seenA seenF p hval
      by_cases hR : p ∈ apiRefsOf fs.data
      · exfalso
        have hA' : p ∈ (hallucinationSpanRecords allSpans validModels wt fs seenA seenF).1 :=
          hseen.mpr (Or.inr hR)
        have hcount := hallucinationGo_count allSpans validModels wt p hval rest
          (hallucinationSpanRecords allSpans validModels wt fs seenA seenF).1
          (hallucinationSpanRecords allSpans validModels wt fs seenA seenF).2.1
        rw [if_pos hA'] at hcount
        rw [List.length_eq_zero.mp hcount] at hmem
        exact absurd hmem (List.not_mem_nil f)
      · have hA' : p ∉ (hallucinationSpanRecords allSpans validModels wt fs seenA seenF).1 := by
          intro hm
          rcases hseen.mp hm with h | h
          · exact hA h
          · exact hR h
        obtain ⟨fs', hfind, hids⟩ := ih
          (hallucinationSpanRecords allSpans validModels wt fs seenA seenF).1
          (hallucinationSpanRecords allSpans validModels wt fs seenA seenF).2.1 hA' f hmem
        refine ⟨fs', ?_, hids⟩
        rw [List.find?_cons_of_neg, hfind]
        intro hc
        exact hR (mem_of_contains hc)

/-- C5: when the same invalid API path occurs in the extracted references of
two different spans of the flattened trace, the hallucination pass emits
exactly one invented_api record for that path, attributed to the first span
(in flattening order) whose output references it. -/
theorem invented_api_deduplication (spans : List FlatSpan) (wt p : String) (i j : Nat)
    (hi : i < spans.length) (hj : j < spans.length) (_hij : i ≠ j)
    (hpi : p ∈ apiRefsOf (spans.get ⟨i, hi⟩).data)
    (_hpj : p ∈ apiRefsOf (spans.get ⟨j, hj⟩).data)
    (hval : isValidApi p = false) :
    ((detectHallucinations spans wt).filter (isInventedApiFor p)).length = 1
    ∧ ∃ fs, spans.find? (fun s => (apiRefsOf s.data).contains p) = some fs
        ∧ ∀ f ∈ (detectHallucinations spans wt).filter (isInventedApiFor p),
            f.span_id = fs.data.span_id ∧ f.span_name = fs.data.name := by
  have hex : ∃ x ∈ spans, p ∈ apiRefsOf x.data :=
    ⟨spans.get ⟨i, hi⟩, List.get_mem spans i hi, hpi⟩
  constructor
  · unfold detectHallucinations
    rw [hallucinationGo_count spans (getValidModelsForWorkflow wt) wt p hval spans [] []]
    simp [hex]
  · have hfind : ∃ fs, spans.find? (fun s => (apiRefsOf s.data).contains p) = some fs := by
      obtain ⟨x, hx, hpx⟩ := hex
      have hpred : (fun s => (apiRefsOf s.data).contains p) x = true :=
        contains_of_mem hpx
      have hsome : (spans.find? (fun s => (apiRefsOf s.data).contains p)).isSome :=
        List.find?_isSome.mpr ⟨x, hx, hpred⟩
      exact Option.isSome_iff_exists.mp hsome
    obtain ⟨fs, hfs⟩ := hfind
    refine ⟨fs, hfs, ?_⟩
    intro f hf
    unfold detectHallucinations at hf
    obtain ⟨fs', hfind', hids⟩ := hallucinationGo_attrib spans
      (getValidModelsForWorkflow wt) wt p hval spans [] [] (by simp) f hf
    rw [hfs] at hfind'
    injection hfind' with h
    rw [h]
    exact hids

/-- Witness for C5: the path /api/fake_metrics occurs in both spans of
`exSpansC5`, is not on the endpoint allow-list, and yields exactly one
invented_api record, attributed to the first span. -/
theorem invented_api_deduplication_witness :
    ((detectHallucinations exSpansC5 "unknown").filter
        (isInventedApiFor "/api/fake_metrics")).length = 1
    ∧ ∃ fs, exSpansC5.find?
          (fun s => (apiRefsOf s.data).contains "/api/fake_metrics") = some fs
        ∧ ∀ f ∈ (detectHallucinations exSpansC5 "unknown").filter
            (isInventedApiFor "/api/fake_metrics"),
            f.span_id = fs.data.span_id ∧ f.span_name = fs.data.name :=
  invented_api_deduplication exSpansC5 "unknown" "/api/fake_metrics" 0 1
    (by decide) (by decide) (by decide) (by decide) (by decide) (by decide)

end AgentDog
